import Mathlib

/-!
# mangaTrackerQt: a shallow embedding of `mainwindow.cpp`

The window class `MainWindow` is modelled as a record `App` of its member variables, of
the widgets it writes, of the SQLite table `bookmarks`, of the requests handed to the
`QNetworkAccessManager` and of the message boxes shown.  Every slot and helper of
`mainwindow.cpp` is a function on `App`; `qDebug` output and `deleteLater` are left out.

Qt library functions that the source calls but does not define (`QString::toDouble`,
`QVariant::toInt`, `QChar::isSpace`, `QUrl::toPercentEncoding`, `QJsonDocument::fromJson`,
`QPixmap::loadFromData`) are parameters, collected in `Qt`.  The outcome of a SQL statement
(the value of `query.exec()`, an error while stepping through a `SELECT`) is a parameter of
the function that runs the statement.

Texts built with `QString::arg` from numbers are kept as the format together with its
arguments (`StatusText`, `MessageText`, `ChapterText`), since the rendering of a `double`
is not part of the model.
-/

namespace MangaTracker

/-! ## Doubles -/

/-- A C++ `double`, by its order structure: not-a-number, the two infinities, and the
finite values as rationals (both zeros are `fin 0`). -/
inductive QDouble
  | nan
  | negInf
  | fin (q : ℚ)
  | posInf
  deriving DecidableEq

namespace QDouble

/-- The C++ comparison `a < b` on doubles: false as soon as one side is NaN. -/
def lt : QDouble → QDouble → Bool
  | fin a, fin b => decide (a < b)
  | negInf, fin _ => true
  | negInf, posInf => true
  | fin _, posInf => true
  | _, _ => false

/-- The C++ comparison `a > b` on doubles. -/
def gt (a b : QDouble) : Bool := lt b a

/-- The C++ comparison `a != b` on doubles: true as soon as one side is NaN. -/
def ne : QDouble → QDouble → Bool
  | nan, _ => true
  | _, nan => true
  | a, b => decide (a ≠ b)

end QDouble

/-! ## JSON values (`QJsonValue`, `QJsonObject`, `QJsonArray`) -/

/-- A `QJsonValue`.  An object is the list of its members in the order of `QJsonObject::keys()`;
a number is a finite value. -/
inductive QJsonValue
  | null
  | undefined
  | bool (b : Bool)
  | double (d : ℚ)
  | string (s : String)
  | array (a : List QJsonValue)
  | object (o : List (String × QJsonValue))

abbrev QJsonObject := List (String × QJsonValue)

abbrev QJsonArray := List QJsonValue

namespace QJsonValue

/-- Model of `QJsonValue::toString()`: the string, or the empty string for any other kind of value. -/
def toString : QJsonValue → String
  | string s => s
  | _ => ""

/-- Model of `QJsonValue::toObject()`: the object, or the empty object for any other kind of value. -/
def toObject : QJsonValue → QJsonObject
  | object o => o
  | _ => []

/-- Model of `QJsonValue::toArray()`: the array, or the empty array for any other kind of value. -/
def toArray : QJsonValue → QJsonArray
  | array a => a
  | _ => []

/-- Model of `QJsonValue::toInt()`: the number when it is integral and fits an `int`, else `0`. -/
def toInt : QJsonValue → Int
  | double d => if d.den = 1 ∧ -2147483648 ≤ d.num ∧ d.num ≤ 2147483647 then d.num else 0
  | _ => 0

end QJsonValue

/-- Model of `QJsonObject::contains(key)`. -/
def QJsonObject.contains (o : QJsonObject) (key : String) : Bool :=
  o.any (fun kv => kv.1 == key)

/-- Model of `QJsonObject::operator[](key)`: the member's value, and `Undefined` for an absent
key (the non-const operator answers `Null` there, which every conversion used reads alike). -/
def QJsonObject.value (o : QJsonObject) (key : String) : QJsonValue :=
  match o.find? (fun kv => kv.1 == key) with
  | some kv => kv.2
  | none => QJsonValue.undefined

/-- Model of `QJsonObject::keys()`. -/
def QJsonObject.keys (o : QJsonObject) : List String :=
  o.map Prod.fst

/-! ## The window's data -/

/-- Model of `MainWindow::Bookmark`; also the shape of a row `(manga_id, title, chapter)` of the
table `bookmarks`. -/
structure Bookmark where
  mangaId : String
  title : String
  chapter : QDouble
  deriving DecidableEq

/-- An item of `listWidgetManga`: its text, its three data roles and its tool tip. -/
structure MangaItem where
  text : String
  mangaId : String
  year : String
  status : String
  toolTip : String
  deriving DecidableEq

/-- The arguments of the format `"Ch. %1%2 (%3 pages) [%4]"` of a chapter item. -/
structure ChapterText where
  chapter : String
  title : String
  pages : Int
  language : String
  deriving DecidableEq

/-- An item of `listWidgetChapter`: its text and its three data roles. -/
structure ChapterItem where
  text : ChapterText
  chapterId : String
  chapterNum : String
  language : String
  deriving DecidableEq

/-- An item of `listWidgetBookmarks`: the arguments of its text `title + " (Ch. " + chapter + ")"`
and its two data roles. -/
structure BookmarkItem where
  textTitle : String
  textChapter : QDouble
  mangaId : String
  title : String
  deriving DecidableEq

/-- The texts written to `labelStatus`. -/
inductive StatusText
  /-- The format `"Manga: %1, Last read: Ch. %2, New Chapter: Yes (Latest: Ch. %3)"` -/
  | newChapterYes (title : String) (lastRead : QDouble) (latest : QDouble)
  /-- The format `"Manga: %1, Last read: Ch. %2, New Chapter: No"` -/
  | newChapterNo (title : String) (lastRead : QDouble)
  deriving DecidableEq

abbrev QByteArray := List Nat

/-- What `labelCover` shows after the code wrote it. -/
inductive CoverLabel
  | text (s : String)
  | pixmap (imageData : QByteArray)
  deriving DecidableEq

/-- A request passed to `networkManager->get`, with the dynamic properties set on its reply
object right after.  `url` is the string given to the `QUrl` constructor; `jsonContentType`
tells whether the `Content-Type: application/json` header was set. -/
structure Request where
  url : String
  jsonContentType : Bool
  requestType : Int
  mangaId : Option String
  mangaTitle : Option String
  deriving DecidableEq

/-- The body of a message box. -/
inductive MessageText
  | plain (s : String)
  /-- The format `"Error: %1"` with the transport's error string -/
  | networkError (errorString : String)
  /-- The format `"Parse error at %1: %2"` with the decoder's offset and error string -/
  | parseError (offset : Int) (errorString : String)
  deriving DecidableEq

inductive MessageIcon
  | critical
  | warning
  | information
  | question
  deriving DecidableEq

/-- A `QMessageBox` shown to the user. -/
structure Message where
  icon : MessageIcon
  title : String
  text : MessageText
  deriving DecidableEq

/-! ## `QMap<QString, Bookmark>` -/

abbrev BookmarkMap := List (String × Bookmark)

/-- Model of `QMap::contains(key)`. -/
def BookmarkMap.contains (m : BookmarkMap) (key : String) : Bool :=
  m.any (fun kv => kv.1 == key)

/-- The value stored under `key`, if any. -/
def BookmarkMap.find (m : BookmarkMap) (key : String) : Option Bookmark :=
  (m.find? (fun kv => kv.1 == key)).map Prod.snd

/-- The assignment `map[key] = value`: the entry of `key` is replaced or added. -/
def BookmarkMap.assign (m : BookmarkMap) (key : String) (value : Bookmark) : BookmarkMap :=
  m.filter (fun kv => kv.1 != key) ++ [(key, value)]

/-- Model of `QMap::remove(key)`. -/
def BookmarkMap.remove (m : BookmarkMap) (key : String) : BookmarkMap :=
  m.filter (fun kv => kv.1 != key)

/-- The values of `enum RequestType`, and the marker set on the image download. -/
def MangaSearch : Int := 0

def ChapterFeed : Int := 1

def MangaDetails : Int := 2

def CoverImage : Int := 3

def RawImage : Int := 999

/-- The state of a `MainWindow`.  `db` is the table `bookmarks`, a list of rows; `sent` are the
requests issued so far, oldest first; `messages` are the message boxes shown so far, oldest
first; `labelStatus` and `labelCover` are `none` until the code writes them. -/
structure App where
  maxChapterNum : QDouble
  selected : Bookmark
  bookmarks : BookmarkMap
  bm : Bookmark
  loadingFromBookmark : Bool
  db : List Bookmark
  listWidgetManga : List MangaItem
  listWidgetChapter : List ChapterItem
  listWidgetBookmarks : List BookmarkItem
  labelStatus : Option StatusText
  labelCover : Option CoverLabel
  sent : List Request
  messages : List Message
  deriving DecidableEq

/-! ## `populateMangaList` -/

/-- Lines 168-185 of `populateMangaList`: the title shown for a title object. -/
def selectTitle (titleObj : QJsonObject) : String :=
  if titleObj.contains "en" && !(titleObj.value "en").toString.isEmpty then
    (titleObj.value "en").toString
  else if titleObj.contains "ja-ro" && !(titleObj.value "ja-ro").toString.isEmpty then
    (titleObj.value "ja-ro").toString
  else if titleObj.contains "ja" && !(titleObj.value "ja").toString.isEmpty then
    (titleObj.value "ja").toString
  else
    match titleObj.keys with
    | first :: _ => (titleObj.value first).toString
    | [] => "Unknown Title"

/-- The body of the loop of `populateMangaList`: the item made from one element of `data`. -/
def mangaItemOf (value : QJsonValue) : MangaItem :=
  let manga := value.toObject
  let attributes := (manga.value "attributes").toObject
  let titleObj := (attributes.value "title").toObject
  let title := selectTitle titleObj
  let mangaId := (manga.value "id").toString
  let year := toString (attributes.value "year").toInt
  let status := (attributes.value "status").toString
  { text := title
    mangaId := mangaId
    year := year
    status := status
    toolTip := "Year: " ++ year ++ "\nStatus: " ++ status ++ "\nID: " ++ mangaId }

/-- Model of `MainWindow::populateMangaList`. -/
def populateMangaList (s : App) (jsonObj : QJsonObject) : App :=
  let dataArray := (jsonObj.value "data").toArray
  { s with listWidgetManga := dataArray.map mangaItemOf }

/-! ## Library functions taken as parameters -/

/-- The error reported by `QJsonDocument::fromJson` through `QJsonParseError`. -/
structure QJsonParseError where
  offset : Int
  errorString : String
  deriving DecidableEq

/-- A non-null `QJsonDocument`: it holds an object or an array. -/
inductive QJsonDocument
  | object (o : QJsonObject)
  | array (a : QJsonArray)

/-- The Qt functions the source calls.  `toDouble str` is `none` when `QString::toDouble`
sets `ok` to false; `variantToInt str` is `QVariant(str).toInt()`, which is `0` when the string
does not convert; `fromJson` is `Except.error` when `parseError.error` is not `NoError`. -/
structure Qt where
  isSpace : Char → Bool
  toPercentEncoding : String → String
  toDouble : String → Option QDouble
  variantToInt : String → Int
  fromJson : QByteArray → Except QJsonParseError QJsonDocument
  loadFromData : QByteArray → Bool

/-- Model of `QString::trimmed()`: the text without the whitespace at its start and at its end. -/
def trimmed (isSpace : Char → Bool) (text : String) : String :=
  String.mk ((text.data.dropWhile isSpace).reverse.dropWhile isSpace).reverse

/-- The row delivered by a `SELECT` over the table: all of them, or an error raised after
`k` rows were delivered (`query.lastError().isValid()` is then true). -/
inductive SqlRead
  | ok
  | failedAfter (k : Nat)
  deriving DecidableEq

/-! ## The bookmark store -/

/-- Model of `INSERT OR REPLACE INTO bookmarks` under `manga_id TEXT PRIMARY KEY`: the rows in conflict
on `manga_id` are deleted and the new row is inserted. -/
def insertOrReplace (rows : List Bookmark) (row : Bookmark) : List Bookmark :=
  rows.filter (fun r => r.mangaId != row.mangaId) ++ [row]

/-- Model of `DELETE FROM bookmarks WHERE manga_id = :manga_id`. -/
def deleteWhere (rows : List Bookmark) (mangaId : String) : List Bookmark :=
  rows.filter (fun r => r.mangaId != mangaId)

/-- Model of `QMessageBox::critical(this, "Database Error", what + query.lastError().text())`; the
driver's text is not kept. -/
def databaseError (s : App) (what : String) : App :=
  { s with messages := s.messages ++ [⟨MessageIcon.critical, "Database Error", MessageText.plain what⟩] }

/-- Model of `MainWindow::saveBookmarkToDb`; `execOk` is the value of `query.exec()`. -/
def saveBookmarkToDb (s : App) (bookmark : Bookmark) (execOk : Bool) : App × Bool :=
  if !execOk then
    (databaseError s "Failed to save bookmark: ", false)
  else
    ({ s with db := insertOrReplace s.db bookmark }, true)

/-- The item added to `listWidgetBookmarks` for a row. -/
def bookmarkItemOf (bm : Bookmark) : BookmarkItem :=
  { textTitle := bm.title, textChapter := bm.chapter, mangaId := bm.mangaId, title := bm.title }

/-- The loop `while (query.next())` of `loadBookmarksFromDb` over the rows delivered. -/
def loadLoop : List Bookmark → BookmarkMap × List BookmarkItem → BookmarkMap × List BookmarkItem
  | [], acc => acc
  | bm :: rest, (bookmarks, items) =>
    loadLoop rest (bookmarks.assign bm.mangaId bm, items ++ [bookmarkItemOf bm])

/-- Model of `MainWindow::loadBookmarksFromDb`; `rd` is the outcome of the `SELECT`. -/
def loadBookmarksFromDb (s : App) (rd : SqlRead) : App × Bool :=
  let delivered := match rd with
    | SqlRead.ok => s.db
    | SqlRead.failedAfter k => s.db.take k
  let loaded := loadLoop delivered ([], [])
  let s1 := { s with bookmarks := loaded.1, listWidgetBookmarks := loaded.2 }
  match rd with
  | SqlRead.failedAfter _ => (databaseError s1 "Failed to load bookmarks: ", false)
  | SqlRead.ok => (s1, true)

/-- Model of `MainWindow::initDatabase`; `openOk` is the value of `db.open()` and `execOk` that
of the `CREATE TABLE IF NOT EXISTS bookmarks`, which leaves the rows of an existing table. -/
def initDatabase (s : App) (openOk : Bool) (execOk : Bool) : App × Bool :=
  if !openOk then
    (databaseError s "Failed to open database: ", false)
  else if !execOk then
    (databaseError s "Failed to create table: ", false)
  else
    (s, true)

/-- The constructor `MainWindow::MainWindow`, on the window as set up by `setupUi`. -/
def construct (s : App) (openOk : Bool) (execOk : Bool) (rd : SqlRead) : App :=
  let opened := initDatabase s openOk execOk
  if opened.2 then (loadBookmarksFromDb opened.1 rd).1 else opened.1

/-- Model of `MainWindow::deleteBookmarkFromDb`; `execOk` is the value of `query.exec()`. -/
def deleteBookmarkFromDb (s : App) (mangaId : String) (execOk : Bool) : App × Bool :=
  if !execOk then
    (databaseError s "Failed to delete bookmark: ", false)
  else
    ({ s with db := deleteWhere s.db mangaId }, true)

/-! ## Requests -/

/-- The call `networkManager->get(request)` followed by the `setProperty` calls on the reply
object: the request joins the requests issued. -/
def issue (s : App) (request : Request) : App :=
  { s with sent := s.sent ++ [request] }

/-! ## `on_pushButtonSearch_clicked` -/

/-- The warning of the search slot. -/
def searchWarning : Message :=
  ⟨MessageIcon.warning, "Search Error", MessageText.plain "Please enter a manga title to search."⟩

/-- Model of `MainWindow::on_pushButtonSearch_clicked`; `lineEditText` is `ui->lineEditSearch->text()`. -/
def on_pushButtonSearch_clicked (qt : Qt) (s : App) (lineEditText : String) : App :=
  let searchText := trimmed qt.isSpace lineEditText
  if searchText.isEmpty then
    { s with messages := s.messages ++ [searchWarning] }
  else
    let encodedText := qt.toPercentEncoding searchText
    let url := "https://api.mangadex.org/manga?title=" ++ encodedText
    issue s ⟨url, true, MangaSearch, none, none⟩

/-! ## `populateChapterList` -/

/-- The item made from one element of the feed's `data` by the loop of `populateChapterList`. -/
def chapterItemOf (value : QJsonValue) : ChapterItem :=
  let chapter := value.toObject
  let attributes := (chapter.value "attributes").toObject
  let chapterId := (chapter.value "id").toString
  let chapterNum := (attributes.value "chapter").toString
  let title := (attributes.value "title").toString
  let pages := (attributes.value "pages").toInt
  let language := (attributes.value "translatedLanguage").toString
  { text :=
      { chapter := if chapterNum.isEmpty then "?" else chapterNum
        title := if title.isEmpty then "" else " - " ++ title
        pages := pages
        language := language }
    chapterId := chapterId
    chapterNum := chapterNum
    language := language }

/-- Lines 232-240: the update of `maxChapterNum` by one chapter field. -/
def trackMax (toDouble : String → Option QDouble) (maxChapterNum : QDouble)
    (chapterNum : String) : QDouble :=
  if !chapterNum.isEmpty then
    match toDouble chapterNum with
    | some numValue => if numValue.gt maxChapterNum then numValue else maxChapterNum
    | none => maxChapterNum
  else
    maxChapterNum

/-- The loop of `populateChapterList` over `data`, on the pair of `maxChapterNum` and the items
of `listWidgetChapter`. -/
def chapterLoop (toDouble : String → Option QDouble) :
    List QJsonValue → QDouble × List ChapterItem → QDouble × List ChapterItem
  | [], acc => acc
  | value :: rest, (maxChapterNum, items) =>
    let item := chapterItemOf value
    chapterLoop toDouble rest (trackMax toDouble maxChapterNum item.chapterNum, items ++ [item])

/-- Model of `MainWindow::populateChapterList`.  The test `bookmarks.contains(selected.mangaId)` and the
read `bookmarks[selected.mangaId]` are one lookup. -/
def populateChapterList (qt : Qt) (s : App) (jsonObj : QJsonObject) : App :=
  let dataArray := (jsonObj.value "data").toArray
  let looped := chapterLoop qt.toDouble dataArray (QDouble.fin (-1), [])
  let s1 := { s with listWidgetChapter := looped.2, maxChapterNum := looped.1 }
  if s1.loadingFromBookmark then
    let s2 := { s1 with loadingFromBookmark := false }
    match s2.bookmarks.find s2.selected.mangaId with
    | some currentBm =>
      if currentBm.chapter.lt s2.maxChapterNum then
        let text := StatusText.newChapterYes currentBm.title currentBm.chapter s2.maxChapterNum
        { s2 with labelStatus := some text }
      else
        let text := StatusText.newChapterNo currentBm.title currentBm.chapter
        { s2 with labelStatus := some text }
    | none => s2
  else
    s1

/-! ## Requests of the cover chain -/

/-- Model of `MainWindow::fetchMangaCover`. -/
def fetchMangaCover (s : App) (mangaId : String) : App :=
  let url := "https://api.mangadex.org/manga/" ++ mangaId ++ "?includes[]=cover_art"
  issue s ⟨url, true, MangaDetails, some mangaId, none⟩

/-- Model of `MainWindow::fetchCoverImage`. -/
def fetchCoverImage (s : App) (mangaId : String) (coverId : String) : App :=
  let url := "https://api.mangadex.org/cover/" ++ coverId
  issue s ⟨url, true, CoverImage, some mangaId, none⟩

/-- Model of `MainWindow::displayCoverImage`. -/
def displayCoverImage (qt : Qt) (s : App) (imageData : QByteArray) : App :=
  if qt.loadFromData imageData then
    { s with labelCover := some (CoverLabel.pixmap imageData) }
  else
    { s with labelCover := some (CoverLabel.text "Failed to load cover") }

/-! ## `onNetworkReply` -/

/-- A finished `QNetworkReply` as the dispatcher reads it: `error` is `none` for `NoError` and
the error string otherwise; `requestType` is `property("requestType").toInt()`; `mangaId` is
`property("mangaId").toString()`; `body` is `readAll()`. -/
structure Reply where
  error : Option String
  requestType : Int
  mangaId : String
  body : QByteArray
  deriving DecidableEq

/-- The reply object of a request, once finished with the given outcome. -/
def replyTo (request : Request) (error : Option String) (body : QByteArray) : Reply :=
  { error := error
    requestType := request.requestType
    mangaId := request.mangaId.getD ""
    body := body }

/-- The loop over `relationships` in the case `MangaDetails`: the value left in `coverId`. -/
def findCoverId : List QJsonValue → String
  | [] => ""
  | rel :: rest =>
    let relObj := rel.toObject
    if (relObj.value "type").toString == "cover_art" then
      (relObj.value "id").toString
    else
      findCoverId rest

/-- The case `MangaDetails` of the dispatcher. -/
def onMangaDetails (s : App) (reply : Reply) (obj : QJsonObject) : App :=
  let data := (obj.value "data").toObject
  let relationships := (data.value "relationships").toArray
  let coverId := findCoverId relationships
  if !coverId.isEmpty then
    fetchCoverImage s reply.mangaId coverId
  else
    { s with labelCover := some (CoverLabel.text "No cover available") }

/-- The branch `requestType == CoverImage` of the dispatcher. -/
def onCoverMetadata (qt : Qt) (s : App) (reply : Reply) : App :=
  match qt.fromJson reply.body with
  | Except.ok (QJsonDocument.object obj) =>
    let data := (obj.value "data").toObject
    let attributes := (data.value "attributes").toObject
    let filename := (attributes.value "fileName").toString
    let imageUrl := "https://uploads.mangadex.org/covers/" ++ reply.mangaId ++ "/" ++ filename
    issue s ⟨imageUrl, false, RawImage, none, none⟩
  | _ => s

/-- Model of `MainWindow::onNetworkReply`. -/
def onNetworkReply (qt : Qt) (s : App) (reply : Reply) : App :=
  match reply.error with
  | some errorString =>
    { s with messages := s.messages ++
        [⟨MessageIcon.critical, "Network Error", MessageText.networkError errorString⟩] }
  | none =>
    if reply.requestType = CoverImage then
      onCoverMetadata qt s reply
    else if reply.requestType = RawImage then
      displayCoverImage qt s reply.body
    else
      match qt.fromJson reply.body with
      | Except.error parseError =>
        { s with messages := s.messages ++
            [⟨MessageIcon.critical, "JSON Parse Error",
              MessageText.parseError parseError.offset parseError.errorString⟩] }
      | Except.ok (QJsonDocument.object obj) =>
        if reply.requestType = MangaSearch then
          populateMangaList s obj
        else if reply.requestType = ChapterFeed then
          populateChapterList qt s obj
        else if reply.requestType = MangaDetails then
          onMangaDetails s reply obj
        else
          s
      | Except.ok (QJsonDocument.array _) => s

/-! ## The list and button slots -/

/-- The URL of the chapter feed of a manga. -/
def feedUrl (mangaId : String) : String :=
  "https://api.mangadex.org/manga/" ++ mangaId ++
    "/feed?limit=100&translatedLanguage[]=en&order[chapter]=asc"

/-- Model of `MainWindow::on_listWidgetManga_itemPressed`; `item` is `none` for a null pointer. -/
def on_listWidgetManga_itemPressed (s : App) (item : Option MangaItem) : App :=
  match item with
  | none => s
  | some item =>
    let mangaId := item.mangaId
    let title := item.text
    let s1 := issue s ⟨feedUrl mangaId, true, ChapterFeed, some mangaId, some title⟩
    let s2 : App := { s1 with selected := { mangaId := mangaId, title := title, chapter := QDouble.fin (-1) } }
    fetchMangaCover s2 mangaId

/-- Model of `MainWindow::on_listWidgetBookmarks_itemClicked`; `item` is `none` for a null pointer. -/
def on_listWidgetBookmarks_itemClicked (s : App) (item : Option BookmarkItem) : App :=
  match item with
  | none => s
  | some item =>
    let mangaId := item.mangaId
    let title := item.title
    let s0 : App := { s with loadingFromBookmark := true }
    let s1 := issue s0 ⟨feedUrl mangaId, true, ChapterFeed, some mangaId, some title⟩
    let s2 : App := { s1 with selected := { mangaId := mangaId, title := title, chapter := QDouble.fin (-1) } }
    fetchMangaCover s2 mangaId

/-- Model of `MainWindow::on_listWidgetChapter_itemPressed`; `item` is `none` for a null
pointer.  The chapter number is the item's data of role `UserRole + 1`, a string, converted
with `toInt()` and stored into the `double` field. -/
def on_listWidgetChapter_itemPressed (qt : Qt) (s : App) (item : Option ChapterItem) : App :=
  match item with
  | none => s
  | some item =>
    let chapterNum : Int := qt.variantToInt item.chapterNum
    { s with selected := { s.selected with chapter := QDouble.fin chapterNum } }

/-- Model of `MainWindow::on_pushButtonLastRead_clicked`; `execOk` is the outcome of the `INSERT`, `rd`
the outcome of the `SELECT` of the reload. -/
def on_pushButtonLastRead_clicked (s : App) (execOk : Bool) (rd : SqlRead) : App :=
  let s1 := { s with bookmarks := s.bookmarks.assign s.bm.mangaId s.bm }
  if s1.selected.chapter.ne (QDouble.fin (-1)) then
    let bm : Bookmark :=
      { mangaId := s1.selected.mangaId, title := s1.selected.title, chapter := s1.selected.chapter }
    let s2 := { s1 with bm := bm }
    let s3 := (saveBookmarkToDb s2 s2.bm execOk).1
    (loadBookmarksFromDb s3 rd).1
  else
    let s2 := { s1 with messages := s1.messages ++
      [⟨MessageIcon.information, "warning", MessageText.plain "pilih chapter"⟩] }
    (loadBookmarksFromDb s2 rd).1

/-- Model of `MainWindow::on_pushButtonDelete_clicked`; `currentItem` is the current item of
`listWidgetBookmarks`, `answerYes` the answer to the question box, `execOk` and `rd` the
outcomes of the `DELETE` and of the `SELECT` of the reload. -/
def on_pushButtonDelete_clicked (s : App) (currentItem : Option BookmarkItem)
    (answerYes : Bool) (execOk : Bool) (rd : SqlRead) : App :=
  match currentItem with
  | none =>
    { s with messages := s.messages ++
        [⟨MessageIcon.warning, "No Selection", MessageText.plain "Please select a bookmark to delete."⟩] }
  | some item =>
    let mangaId := item.mangaId
    let title := item.title
    let s1 := { s with messages := s.messages ++
      [⟨MessageIcon.question, "Delete Bookmark", MessageText.plain ("Delete bookmark for " ++ title ++ "?")⟩] }
    if answerYes then
      let deleted := deleteBookmarkFromDb s1 mangaId execOk
      if deleted.2 then
        let s2 := { deleted.1 with bookmarks := deleted.1.bookmarks.remove mangaId }
        (loadBookmarksFromDb s2 rd).1
      else
        deleted.1
    else
      s1

/-! ## Runs of the window: slots and finished requests -/

/-- Who issued a request. -/
inductive Issuer
  | mangaPress
  | bookmarkClick
  | dispatcher
  deriving DecidableEq

/-- What happens to the window: a press on an item of the manga list, a click on an item of the
bookmark list, or the signal `finished` for the `i`-th request issued, with its outcome. -/
inductive Event
  | mangaPressed (item : Option MangaItem)
  | bookmarkClicked (item : Option BookmarkItem)
  | finished (i : Nat) (error : Option String) (body : QByteArray)

/-- A mark of the history of a run: a bookmark click that set `loadingFromBookmark`, or a call of
`populateChapterList` on the response to request `i`, with what the call did to the window:
whether the text of `labelStatus` at its return differs from the text before it (only the
freshness comparison of lines 277-293 writes that label), and the value of
`loadingFromBookmark` at its return. -/
inductive Mark
  | clicked
  | feedHandled (i : Nat) (labelChanged : Bool) (flagAfter : Bool)
  deriving DecidableEq

/-- The object handed to `populateChapterList` by the dispatcher for this reply, if it gets
there: no transport error, the tag `ChapterFeed`, a body that decodes to an object. -/
def feedObject (qt : Qt) (reply : Reply) : Option QJsonObject :=
  match reply.error with
  | some _ => none
  | none =>
    if reply.requestType = ChapterFeed then
      match qt.fromJson reply.body with
      | Except.ok (QJsonDocument.object obj) => some obj
      | _ => none
    else
      none

/-- A window together with the issuer of each request of `app.sent` and the history of the run. -/
structure Sys where
  app : App
  issuedBy : List Issuer
  history : List Mark

/-- The issuers, extended by `who` for the requests that `app` has beyond those of `sys`. -/
def Sys.issuers (sys : Sys) (app : App) (who : Issuer) : List Issuer :=
  sys.issuedBy ++ List.replicate (app.sent.length - sys.app.sent.length) who

/-- One event of a run.  A `finished` for a request never issued does nothing.  The two bits
of the mark `feedHandled` are read off the window that `onNetworkReply` returns. -/
def Sys.step (qt : Qt) (sys : Sys) : Event → Sys
  | Event.mangaPressed item =>
    let app := on_listWidgetManga_itemPressed sys.app item
    { app := app, issuedBy := sys.issuers app Issuer.mangaPress, history := sys.history }
  | Event.bookmarkClicked item =>
    let app := on_listWidgetBookmarks_itemClicked sys.app item
    { app := app
      issuedBy := sys.issuers app Issuer.bookmarkClick
      history := if item.isSome then sys.history ++ [Mark.clicked] else sys.history }
  | Event.finished i error body =>
    match sys.app.sent[i]? with
    | none => sys
    | some request =>
      let reply := replyTo request error body
      let app := onNetworkReply qt sys.app reply
      { app := app
        issuedBy := sys.issuers app Issuer.dispatcher
        history :=
          match feedObject qt reply with
          | some _ =>
            sys.history ++
              [Mark.feedHandled i (decide (app.labelStatus ≠ sys.app.labelStatus))
                app.loadingFromBookmark]
          | none => sys.history }

/-- Model of `QString::toDouble` on the strings of the examples; every other string is taken not to
parse. -/
def sampleToDouble : String → Option QDouble
  | "1" => some (QDouble.fin 1)
  | "2.5" => some (QDouble.fin (mkRat 5 2))
  | "5" => some (QDouble.fin 5)
  | "10" => some (QDouble.fin 10)
  | "-5" => some (QDouble.fin (-5))
  | _ => none

/-- The conversion `QVariant(str).toInt()` on the strings of the examples: the decimal
integers convert, every other string gives `0`. -/
def sampleVariantToInt : String → Int
  | "1" => 1
  | "5" => 5
  | "10" => 10
  | "-5" => -5
  | _ => 0

/-- Model of `QChar::isSpace` on the ASCII range: the space and the controls from tab to carriage
return. -/
def asciiSpace (c : Char) : Bool :=
  c == ' ' || (9 ≤ c.toNat && c.toNat ≤ 13)

/-- The upper-case hexadecimal digit of a number below 16. -/
def hexDigit (n : Nat) : Char :=
  "0123456789ABCDEF".data.getD n '0'

/-- Percent-encoding of the UTF-8 bytes of a character, the unreserved characters
(letters, digits, `-`, `.`, `_`, `~`) standing for themselves. -/
def percentEncodeChar (c : Char) : List Char :=
  if c.isAlphanum || c == '-' || c == '.' || c == '_' || c == '~' then
    [c]
  else
    (String.utf8EncodeChar c).flatMap (fun b => ['%', hexDigit (b.toNat / 16), hexDigit (b.toNat % 16)])

/-- Percent-encoding of a text, as `QUrl::toPercentEncoding` with its default arguments. -/
def percentEncode (text : String) : String :=
  String.mk (text.data.flatMap percentEncodeChar)

/-- The library functions of the examples; the decoder answers `decoded` for the body at
hand. -/
def sampleQt (decoded : Except QJsonParseError QJsonDocument) : Qt :=
  { isSpace := asciiSpace
    toPercentEncoding := percentEncode
    toDouble := sampleToDouble
    variantToInt := sampleVariantToInt
    fromJson := fun _ => decoded
    loadFromData := fun _ => true }

/-- A window before any interaction, with an empty table. -/
def emptyApp : App :=
  { maxChapterNum := QDouble.fin 0
    selected := ⟨"", "", QDouble.fin 0⟩
    bookmarks := []
    bm := ⟨"", "", QDouble.fin 0⟩
    loadingFromBookmark := false
    db := []
    listWidgetManga := []
    listWidgetChapter := []
    listWidgetBookmarks := []
    labelStatus := none
    labelCover := none
    sent := []
    messages := [] }

/-- A chapter-feed entry whose `attributes.chapter` is the given string. -/
def chapterEntry (chapterNum : String) : QJsonValue :=
  QJsonValue.object [("attributes", QJsonValue.object [("chapter", QJsonValue.string chapterNum)])]

/-- A decoded chapter feed with the given chapter fields. -/
def feedOf (chapters : List String) : QJsonObject :=
  [("data", QJsonValue.array (chapters.map chapterEntry))]

/-- A window whose bookmark list was just clicked on the manga "m1", bookmarked at the given
chapter: the flag is set, the selection is "m1". -/
def bookmarkedApp (chapter : QDouble) : App :=
  { emptyApp with
    loadingFromBookmark := true
    bookmarks := [("m1", ⟨"m1", "One Piece", chapter⟩)]
    db := [⟨"m1", "One Piece", chapter⟩]
    selected := ⟨"m1", "One Piece", QDouble.fin (-1)⟩ }

/-- The library functions of the examples, the body at hand decoding to the feed with
chapters "1" and "10". -/
def feedQt : Qt :=
  sampleQt (Except.ok (QJsonDocument.object (feedOf ["1", "10"])))

/-- A decoded details response whose only relationship has the type "cover_art" and no id. -/
def coverWithoutId : QJsonObject :=
  [("data", QJsonValue.object
    [("relationships", QJsonValue.array
      [QJsonValue.object [("type", QJsonValue.string "cover_art")]])])]

/-- A decoded details response with an author and then a cover of id "c7". -/
def coverWithId : QJsonObject :=
  [("data", QJsonValue.object
    [("relationships", QJsonValue.array
      [QJsonValue.object [("id", QJsonValue.string "a1"), ("type", QJsonValue.string "author")],
       QJsonValue.object [("id", QJsonValue.string "c7"), ("type", QJsonValue.string "cover_art")]])])]

/-- A finished request of the given tag for the manga "m1", without transport error. -/
def replyTagged (requestType : Int) : Reply :=
  { error := none, requestType := requestType, mangaId := "m1", body := [] }

/-- A window whose table holds the bookmarks of "m1" and "m2", with chapter 12 of "m1" chosen
and a stale `bm` left from "m2". -/
def chosenApp : App :=
  { emptyApp with
    db := [⟨"m1", "One Piece", QDouble.fin 5⟩, ⟨"m2", "Berserk", QDouble.fin 3⟩]
    selected := ⟨"m1", "One Piece", QDouble.fin 12⟩
    bm := ⟨"m2", "Berserk", QDouble.fin 3⟩ }

/-- A window whose table holds only the bookmark of "m1", with no chapter chosen and a stale
`bm` for "m9", a manga that has no row in the table. -/
def staleApp : App :=
  { emptyApp with
    db := [⟨"m1", "One Piece", QDouble.fin 5⟩]
    bookmarks := [("m1", ⟨"m1", "One Piece", QDouble.fin 5⟩)]
    selected := ⟨"m1", "One Piece", QDouble.fin (-1)⟩
    bm := ⟨"m9", "Ghost", QDouble.fin 1⟩ }

/-! ## Notions of the specification -/

/-- A key under which the title object holds a non-empty title: the key is present and its
value, read as a string, is not empty. -/
def usableTitle (titleObj : QJsonObject) (key : String) : Prop :=
  titleObj.contains key = true ∧ (titleObj.value key).toString ≠ ""

/-- The title object of an element of the `data` array of a search response. -/
def titleObjectOf (value : QJsonValue) : QJsonObject :=
  (((value.toObject.value "attributes").toObject).value "title").toObject

/-- The chapter field of an element of the `data` array of a chapter feed. -/
def chapterField (value : QJsonValue) : String :=
  (((value.toObject.value "attributes").toObject).value "chapter").toString

/-- The number an entry's chapter field parses to, if it is not empty and parses. -/
def parsedChapter (toDouble : String → Option QDouble) (value : QJsonValue) : Option QDouble :=
  if (chapterField value).isEmpty then none else toDouble (chapterField value)

/-- The parsed values of the entries of a feed whose chapter field parses, in feed order. -/
def parsedChapters (toDouble : String → Option QDouble) (jsonObj : QJsonObject) : List QDouble :=
  ((jsonObj.value "data").toArray).filterMap (parsedChapter toDouble)

/-- What the running maximum of `populateChapterList` satisfies once the values `seen` went
through it: none of them exceeds it, and it is the initial `-1` or one of them above `-1`. -/
def MaxOver (m : QDouble) (seen : List QDouble) : Prop :=
  (∀ v ∈ seen, m.lt v = false)
    ∧ (m = QDouble.fin (-1) ∨ (m ∈ seen ∧ (QDouble.fin (-1)).lt m = true))

/-- A text that is empty or consists only of whitespace. -/
def Blank (isSpace : Char → Bool) (text : String) : Prop :=
  ∀ c ∈ text.data, isSpace c = true

/-- The search request for a text: a GET with the JSON content type, tagged `MangaSearch`, to
the search endpoint followed by the percent-encoding of the trimmed text. -/
def searchRequest (qt : Qt) (text : String) : Request :=
  { url := "https://api.mangadex.org/manga?title=" ++ qt.toPercentEncoding (trimmed qt.isSpace text)
    jsonContentType := true
    requestType := MangaSearch
    mangaId := none
    mangaTitle := none }

/-- The `relationships` array of a decoded details response. -/
def relationshipsOf (obj : QJsonObject) : List QJsonValue :=
  (((obj.value "data").toObject).value "relationships").toArray

/-- An entry of `relationships` whose type equals "cover_art". -/
def isCoverArt (rel : QJsonValue) : Bool :=
  (rel.toObject.value "type").toString == "cover_art"

/-- The id of an entry of `relationships`, read as a string. -/
def relationId (rel : QJsonValue) : String :=
  (rel.toObject.value "id").toString

/-- The first entry of `relationships` whose type equals "cover_art", if any. -/
def firstCoverArt (obj : QJsonObject) : Option QJsonValue :=
  (relationshipsOf obj).find? isCoverArt

/-- The request of the second hop of the cover chain: a GET with the JSON content type, tagged
`CoverImage`, for `/cover/{coverId}`, carrying the manga id. -/
def coverRequest (mangaId : String) (coverId : String) : Request :=
  { url := "https://api.mangadex.org/cover/" ++ coverId
    jsonContentType := true
    requestType := CoverImage
    mangaId := some mangaId
    mangaTitle := none }

/-- The rows of a table whose `manga_id` is the given one. -/
def rowsOf (rows : List Bookmark) (mangaId : String) : List Bookmark :=
  rows.filter (fun r => r.mangaId == mangaId)

/-- The rows of a table whose `manga_id` differs from the given one. -/
def otherRows (rows : List Bookmark) (mangaId : String) : List Bookmark :=
  rows.filter (fun r => r.mangaId != mangaId)

/-- The entry of the in-memory map for a row of the table: the row under its `manga_id`. -/
def entryOf (row : Bookmark) : String × Bookmark :=
  (row.mangaId, row)

/-- The constraint `manga_id TEXT PRIMARY KEY` on the rows of the table: no two rows have the
same `manga_id`. -/
def PrimaryKey (rows : List Bookmark) : Prop :=
  (rows.map Bookmark.mangaId).Nodup

/-! ## Title selection (C1, C2) -/

/-- The value read under a key that the object contains is the value of one of its members. -/
theorem value_mem_of_contains (o : QJsonObject) (key : String) (h : o.contains key = true) :
    ∃ kv ∈ o, kv.1 = key ∧ o.value key = kv.2 := by
  unfold QJsonObject.contains at h
  rw [List.any_eq_true] at h
  obtain ⟨kv0, hmem, hkey⟩ := h
  cases hfind : o.find? (fun kv => kv.1 == key) with
  | none =>
    rw [List.find?_eq_none] at hfind
    exact absurd hkey (hfind kv0 hmem)
  | some kv =>
    refine ⟨kv, List.mem_of_find?_eq_some hfind, ?_, ?_⟩
    · have := List.find?_some hfind
      simpa using this
    · simp [QJsonObject.value, hfind]

/-- The value read under the first key is the value of the first member. -/
theorem value_first (kv : String × QJsonValue) (rest : QJsonObject) :
    QJsonObject.value (kv :: rest) kv.1 = kv.2 := by
  simp [QJsonObject.value, List.find?]

/-- The test of a branch of the title selection holds exactly for a usable key. -/
theorem branch_iff_usable (titleObj : QJsonObject) (key : String) :
    (titleObj.contains key && !(titleObj.value key).toString.isEmpty) = true
      ↔ usableTitle titleObj key := by
  unfold usableTitle
  rw [Bool.and_eq_true, Bool.not_eq_true', ← Bool.not_eq_true, String.isEmpty_iff]

/-- The five cases of the title selection. -/
theorem selectTitle_cases (titleObj : QJsonObject) :
    (usableTitle titleObj "en" → selectTitle titleObj = (titleObj.value "en").toString)
      ∧ (¬ usableTitle titleObj "en" → usableTitle titleObj "ja-ro" →
          selectTitle titleObj = (titleObj.value "ja-ro").toString)
      ∧ (¬ usableTitle titleObj "en" → ¬ usableTitle titleObj "ja-ro" →
          usableTitle titleObj "ja" → selectTitle titleObj = (titleObj.value "ja").toString)
      ∧ (¬ usableTitle titleObj "en" → ¬ usableTitle titleObj "ja-ro" →
          ¬ usableTitle titleObj "ja" → ∀ first rest, titleObj.keys = first :: rest →
          selectTitle titleObj = (titleObj.value first).toString)
      ∧ (¬ usableTitle titleObj "en" → ¬ usableTitle titleObj "ja-ro" →
          ¬ usableTitle titleObj "ja" → titleObj.keys = [] →
          selectTitle titleObj = "Unknown Title") := by
  refine ⟨?_, ?_, ?_, ?_, ?_⟩
  · intro h1
    rw [← branch_iff_usable] at h1
    simp only [selectTitle, h1, if_true]
  · intro h1 h2
    rw [← branch_iff_usable, Bool.not_eq_true] at h1
    rw [← branch_iff_usable] at h2
    simp only [selectTitle, h1, h2, if_true, Bool.false_eq_true, if_false]
  · intro h1 h2 h3
    rw [← branch_iff_usable, Bool.not_eq_true] at h1 h2
    rw [← branch_iff_usable] at h3
    simp only [selectTitle, h1, h2, h3, if_true, Bool.false_eq_true, if_false]
  · intro h1 h2 h3 first rest hk
    rw [← branch_iff_usable, Bool.not_eq_true] at h1 h2 h3
    simp only [selectTitle, h1, h2, h3, Bool.false_eq_true, if_false, hk]
  · intro h1 h2 h3 hk
    rw [← branch_iff_usable, Bool.not_eq_true] at h1 h2 h3
    simp only [selectTitle, h1, h2, h3, Bool.false_eq_true, if_false, hk]

/-- C1: the title shown for each entry of a search response is the title selected from the
entry's title object, and that selection is: the "en" title if present and non-empty; else
the "ja-ro" title if present and non-empty; else the "ja" title if present and non-empty; else
the title under the first key if there is a key; else "Unknown Title".  The object with
"en" = "Attack" and "ja-ro" = "Shingeki" gives "Attack". -/
theorem populateMangaList_title (s : App) (jsonObj : QJsonObject) :
    (populateMangaList s jsonObj).listWidgetManga.map MangaItem.text
        = ((jsonObj.value "data").toArray).map (fun value => selectTitle (titleObjectOf value))
      ∧ (∀ titleObj : QJsonObject,
          (usableTitle titleObj "en" → selectTitle titleObj = (titleObj.value "en").toString)
          ∧ (¬ usableTitle titleObj "en" → usableTitle titleObj "ja-ro" →
              selectTitle titleObj = (titleObj.value "ja-ro").toString)
          ∧ (¬ usableTitle titleObj "en" → ¬ usableTitle titleObj "ja-ro" →
              usableTitle titleObj "ja" → selectTitle titleObj = (titleObj.value "ja").toString)
          ∧ (¬ usableTitle titleObj "en" → ¬ usableTitle titleObj "ja-ro" →
              ¬ usableTitle titleObj "ja" → ∀ first rest, titleObj.keys = first :: rest →
              selectTitle titleObj = (titleObj.value first).toString)
          ∧ (¬ usableTitle titleObj "en" → ¬ usableTitle titleObj "ja-ro" →
              ¬ usableTitle titleObj "ja" → titleObj.keys = [] →
              selectTitle titleObj = "Unknown Title"))
      ∧ selectTitle [("en", QJsonValue.string "Attack"), ("ja-ro", QJsonValue.string "Shingeki")]
          = "Attack" := by
  refine ⟨?_, ?_, by decide⟩
  · simp [populateMangaList, mangaItemOf, titleObjectOf, List.map_map, Function.comp_def]
  · exact selectTitle_cases

/-- C1, at a title object holding only a French title: the first key decides. -/
theorem populateMangaList_title_witness :
    selectTitle [("fr", QJsonValue.string "Titre")] = "Titre" :=
  (populateMangaList_title emptyApp []).2.1 [("fr", QJsonValue.string "Titre")]
    |>.2.2.2.1 (by simp [usableTitle, QJsonObject.contains]) (by simp [usableTitle, QJsonObject.contains])
      (by simp [usableTitle, QJsonObject.contains]) "fr" [] rfl

/-- C2, as stated, fails: with "en" present but empty and a non-empty title under "fr", none
of the three preferred keys is usable, the first key is "en", and the title chosen is the
empty string although the object holds the non-empty title "X". -/
theorem selectTitle_empty_despite_title :
    (∃ kv ∈ ([("en", QJsonValue.string ""), ("fr", QJsonValue.string "X")] : QJsonObject),
        kv.2.toString ≠ "")
      ∧ selectTitle [("en", QJsonValue.string ""), ("fr", QJsonValue.string "X")] = "" :=
  ⟨⟨("fr", QJsonValue.string "X"), by simp, by decide⟩, by decide⟩

/-- The title chosen from a title object that has a member is the title of one of its
members. -/
theorem selectTitle_mem (titleObj : QJsonObject) (hne : titleObj ≠ []) :
    ∃ kv ∈ titleObj, kv.2.toString = selectTitle titleObj := by
  have key : ∀ k, usableTitle titleObj k → selectTitle titleObj = (titleObj.value k).toString →
      ∃ kv ∈ titleObj, kv.2.toString = selectTitle titleObj := by
    intro k hu hs
    obtain ⟨kv, hmem, -, hval⟩ := value_mem_of_contains titleObj k hu.1
    exact ⟨kv, hmem, by rw [hs, hval]⟩
  have facts := selectTitle_cases titleObj
  by_cases h1 : usableTitle titleObj "en"
  · exact key _ h1 (facts.1 h1)
  by_cases h2 : usableTitle titleObj "ja-ro"
  · exact key _ h2 (facts.2.1 h1 h2)
  by_cases h3 : usableTitle titleObj "ja"
  · exact key _ h3 (facts.2.2.1 h1 h2 h3)
  cases titleObj with
  | nil => exact absurd rfl hne
  | cons kv tl =>
    have hs := facts.2.2.2.1 h1 h2 h3 kv.1 (QJsonObject.keys tl) rfl
    rw [value_first] at hs
    exact ⟨kv, List.mem_cons_self _ _, hs.symm⟩

/-- C2, amended: when "en", "ja-ro" or "ja" holds a non-empty title, or the first key holds a
non-empty title, the title chosen is not empty and is the title of a member of the object;
and, for every title object, the placeholder "Unknown Title" is chosen only if the object
has no member or one of its members holds that very text. -/
theorem selectTitle_nonempty (titleObj : QJsonObject) :
    ((usableTitle titleObj "en" ∨ usableTitle titleObj "ja-ro" ∨ usableTitle titleObj "ja"
        ∨ ∃ first rest, titleObj.keys = first :: rest ∧ (titleObj.value first).toString ≠ "") →
      selectTitle titleObj ≠ "" ∧ ∃ kv ∈ titleObj, kv.2.toString = selectTitle titleObj)
    ∧ (selectTitle titleObj = "Unknown Title" →
        titleObj = [] ∨ ∃ kv ∈ titleObj, kv.2.toString = "Unknown Title") := by
  have facts := selectTitle_cases titleObj
  refine ⟨?_, ?_⟩
  · intro h
    have hne : titleObj ≠ [] := by
      intro hnil
      subst hnil
      rcases h with h | h | h | ⟨first, rest, hk, -⟩
      · exact absurd h.1 (by simp [QJsonObject.contains])
      · exact absurd h.1 (by simp [QJsonObject.contains])
      · exact absurd h.1 (by simp [QJsonObject.contains])
      · simp [QJsonObject.keys] at hk
    refine ⟨?_, selectTitle_mem titleObj hne⟩
    by_cases h1 : usableTitle titleObj "en"
    · rw [facts.1 h1]; exact h1.2
    by_cases h2 : usableTitle titleObj "ja-ro"
    · rw [facts.2.1 h1 h2]; exact h2.2
    by_cases h3 : usableTitle titleObj "ja"
    · rw [facts.2.2.1 h1 h2 h3]; exact h3.2
    rcases h with h | h | h | ⟨first, rest, hk, hfirst⟩
    · exact absurd h h1
    · exact absurd h h2
    · exact absurd h h3
    · rw [facts.2.2.2.1 h1 h2 h3 first rest hk]; exact hfirst
  · intro hU
    by_cases hnil : titleObj = []
    · exact Or.inl hnil
    · obtain ⟨kv, hmem, hkv⟩ := selectTitle_mem titleObj hnil
      exact Or.inr ⟨kv, hmem, by rw [hkv, hU]⟩

/-- C2, amended, at "ja" = "X" and "en" = "": the title chosen is "X". -/
theorem selectTitle_nonempty_witness :
    selectTitle [("en", QJsonValue.string ""), ("ja", QJsonValue.string "X")] ≠ ""
      ∧ selectTitle [("en", QJsonValue.string ""), ("ja", QJsonValue.string "X")] = "X" :=
  ⟨((selectTitle_nonempty [("en", QJsonValue.string ""), ("ja", QJsonValue.string "X")]).1
      (Or.inr (Or.inr (Or.inl ⟨by decide, by decide⟩)))).1, by decide⟩

/-! ## The maximum chapter number (C3) -/

theorem qlt_irrefl (a : QDouble) : a.lt a = false := by
  cases a <;> simp [QDouble.lt]

theorem qlt_trans {a b c : QDouble} (hab : a.lt b = true) (hbc : b.lt c = true) :
    a.lt c = true := by
  cases a <;> cases b <;> cases c <;> simp [QDouble.lt] at hab hbc ⊢
  exact hab.trans hbc

/-- One entry through `trackMax`, in terms of the number its chapter field parses to. -/
theorem trackMax_chapterItem (toDouble : String → Option QDouble) (m : QDouble)
    (value : QJsonValue) :
    trackMax toDouble m (chapterItemOf value).chapterNum
      = match parsedChapter toDouble value with
        | some v => if m.lt v then v else m
        | none => m := by
  have hnum : (chapterItemOf value).chapterNum = chapterField value := rfl
  rw [hnum]
  unfold trackMax parsedChapter
  cases hE : (chapterField value).isEmpty
  · cases hP : toDouble (chapterField value) <;> simp [QDouble.gt]
  · simp

/-- The loop of `populateChapterList` keeps `MaxOver` along the feed. -/
theorem chapterLoop_maxOver (toDouble : String → Option QDouble) (dataArray : List QJsonValue) :
    ∀ (m : QDouble) (items : List ChapterItem) (seen : List QDouble), MaxOver m seen →
      MaxOver (chapterLoop toDouble dataArray (m, items)).1
        (seen ++ dataArray.filterMap (parsedChapter toDouble)) := by
  induction dataArray with
  | nil => intro m items seen h; simpa [chapterLoop] using h
  | cons value rest ih =>
    intro m items seen h
    rw [chapterLoop, trackMax_chapterItem, List.filterMap_cons]
    cases hP : parsedChapter toDouble value with
    | none => exact ih m _ seen h
    | some v =>
      have step : MaxOver (if m.lt v then v else m) (seen ++ [v]) := by
        obtain ⟨hub, hmem⟩ := h
        cases hlt : m.lt v with
        | true =>
          simp only [if_true]
          refine ⟨?_, Or.inr ⟨by simp, ?_⟩⟩
          · intro u hu
            rcases List.mem_append.1 hu with hu | hu
            · by_contra hc
              have huv : v.lt u = true := by simpa using hc
              have hmu := hub u hu
              rw [qlt_trans hlt huv] at hmu
              exact absurd hmu (by simp)
            · rw [List.mem_singleton.1 hu]; exact qlt_irrefl v
          · rcases hmem with hm | ⟨-, hm⟩
            · rw [← hm]; exact hlt
            · exact qlt_trans hm hlt
        | false =>
          simp only [Bool.false_eq_true, if_false]
          refine ⟨?_, ?_⟩
          · intro u hu
            rcases List.mem_append.1 hu with hu | hu
            · exact hub u hu
            · rw [List.mem_singleton.1 hu]; exact hlt
          · rcases hmem with hm | ⟨hm, hgt⟩
            · exact Or.inl hm
            · exact Or.inr ⟨List.mem_append_left _ hm, hgt⟩
      have := ih (if m.lt v then v else m) (items ++ [chapterItemOf value]) (seen ++ [v]) step
      simpa [List.append_assoc] using this

/-- The value `populateChapterList` leaves in `maxChapterNum` is the result of its loop. -/
theorem populateChapterList_max (qt : Qt) (s : App) (jsonObj : QJsonObject) :
    (populateChapterList qt s jsonObj).maxChapterNum
      = (chapterLoop qt.toDouble ((jsonObj.value "data").toArray) (QDouble.fin (-1), [])).1 := by
  unfold populateChapterList
  simp only
  split
  · split
    · split <;> rfl
    · rfl
  · rfl

/-- C3, as stated, fails: the single chapter field "-5" parses to -5, and `maxChapterNum` is
left at -1, which is not a parsed value of the feed. -/
theorem maxChapterNum_negative_chapter :
    parsedChapters sampleToDouble (feedOf ["-5"]) = [QDouble.fin (-5)]
      ∧ (populateChapterList (sampleQt (Except.ok (QJsonDocument.array []))) emptyApp
          (feedOf ["-5"])).maxChapterNum = QDouble.fin (-1) := by
  decide

/-- C3, amended: no parsed value of the feed exceeds the value left in `maxChapterNum`; when
some parsed value is greater than -1 that value is one of the parsed values, hence their
maximum; when none is, it is -1.  Entries whose chapter field is empty or does not parse
take no part. -/
theorem populateChapterList_maxChapterNum (qt : Qt) (s : App) (jsonObj : QJsonObject) :
    (∀ v ∈ parsedChapters qt.toDouble jsonObj,
        (populateChapterList qt s jsonObj).maxChapterNum.lt v = false)
      ∧ ((∃ v ∈ parsedChapters qt.toDouble jsonObj, (QDouble.fin (-1)).lt v = true) →
          (populateChapterList qt s jsonObj).maxChapterNum ∈ parsedChapters qt.toDouble jsonObj)
      ∧ ((∀ v ∈ parsedChapters qt.toDouble jsonObj, (QDouble.fin (-1)).lt v = false) →
          (populateChapterList qt s jsonObj).maxChapterNum = QDouble.fin (-1)) := by
  have h := chapterLoop_maxOver qt.toDouble ((jsonObj.value "data").toArray)
    (QDouble.fin (-1)) [] [] ⟨by simp, Or.inl rfl⟩
  rw [List.nil_append, ← populateChapterList_max qt s jsonObj] at h
  obtain ⟨hub, hmem⟩ := h
  refine ⟨hub, ?_, ?_⟩
  · rintro ⟨v, hv, hgt⟩
    rcases hmem with hm | ⟨hm, -⟩
    · have := hub v hv
      rw [hm, hgt] at this
      exact absurd this (by simp)
    · exact hm
  · intro hall
    rcases hmem with hm | ⟨hm, hgt⟩
    · exact hm
    · rw [hall _ hm] at hgt
      exact absurd hgt (by simp)

/-- C3, amended, at the chapter fields "1", "2.5", "abc", "10": the maximum is 10. -/
theorem populateChapterList_maxChapterNum_witness :
    (populateChapterList (sampleQt (Except.ok (QJsonDocument.array []))) emptyApp
        (feedOf ["1", "2.5", "abc", "10"])).maxChapterNum
        ∈ parsedChapters sampleToDouble (feedOf ["1", "2.5", "abc", "10"])
      ∧ (populateChapterList (sampleQt (Except.ok (QJsonDocument.array []))) emptyApp
        (feedOf ["1", "2.5", "abc", "10"])).maxChapterNum = QDouble.fin 10 :=
  ⟨(populateChapterList_maxChapterNum (sampleQt (Except.ok (QJsonDocument.array []))) emptyApp
      (feedOf ["1", "2.5", "abc", "10"])).2.1 ⟨QDouble.fin 10, by decide, by decide⟩, by decide⟩

/-! ## The freshness indicator (C4) -/

/-- What `populateChapterList` does to the flag and the status label, by the two guards. -/
theorem populateChapterList_status (qt : Qt) (s : App) (jsonObj : QJsonObject) :
    (populateChapterList qt s jsonObj).loadingFromBookmark = false
      ∧ (populateChapterList qt s jsonObj).labelStatus
        = if s.loadingFromBookmark then
            match s.bookmarks.find s.selected.mangaId with
            | some currentBm =>
              if currentBm.chapter.lt (populateChapterList qt s jsonObj).maxChapterNum then
                some (StatusText.newChapterYes currentBm.title currentBm.chapter
                  (populateChapterList qt s jsonObj).maxChapterNum)
              else
                some (StatusText.newChapterNo currentBm.title currentBm.chapter)
            | none => s.labelStatus
          else s.labelStatus := by
  rw [populateChapterList_max]
  unfold populateChapterList
  cases hflag : s.loadingFromBookmark with
  | false => simp [hflag]
  | true =>
    cases hfind : s.bookmarks.find s.selected.mangaId with
    | none => simp [hflag, hfind]
    | some currentBm =>
      simp only [hflag, hfind, if_true]
      split <;> simp

/-- C4: when the flag is set and the selected manga has a bookmark, the status label gets the
"New Chapter: Yes" text exactly when the bookmark's chapter is strictly less than the computed
maximum, and the "New Chapter: No" text exactly when it is not. -/
theorem populateChapterList_freshness (qt : Qt) (s : App) (jsonObj : QJsonObject)
    (currentBm : Bookmark) (hflag : s.loadingFromBookmark = true)
    (hbm : s.bookmarks.find s.selected.mangaId = some currentBm) :
    ((populateChapterList qt s jsonObj).labelStatus
        = some (StatusText.newChapterYes currentBm.title currentBm.chapter
            (populateChapterList qt s jsonObj).maxChapterNum)
      ↔ currentBm.chapter.lt (populateChapterList qt s jsonObj).maxChapterNum = true)
    ∧ ((populateChapterList qt s jsonObj).labelStatus
        = some (StatusText.newChapterNo currentBm.title currentBm.chapter)
      ↔ currentBm.chapter.lt (populateChapterList qt s jsonObj).maxChapterNum = false) := by
  rw [(populateChapterList_status qt s jsonObj).2, hflag, hbm]
  cases hlt : currentBm.chapter.lt (populateChapterList qt s jsonObj).maxChapterNum <;> simp [hlt]

/-- C4, at a bookmark at chapter 5 and at chapter 10 against a feed whose maximum is 10: the
first gets "New Chapter: Yes", the second "New Chapter: No". -/
theorem populateChapterList_freshness_witness :
    (populateChapterList (sampleQt (Except.ok (QJsonDocument.array []))) (bookmarkedApp (QDouble.fin 5))
        (feedOf ["1", "10"])).labelStatus
        = some (StatusText.newChapterYes "One Piece" (QDouble.fin 5) (QDouble.fin 10))
      ∧ (populateChapterList (sampleQt (Except.ok (QJsonDocument.array []))) (bookmarkedApp (QDouble.fin 10))
        (feedOf ["1", "10"])).labelStatus
        = some (StatusText.newChapterNo "One Piece" (QDouble.fin 10)) :=
  ⟨((populateChapterList_freshness (sampleQt (Except.ok (QJsonDocument.array [])))
      (bookmarkedApp (QDouble.fin 5)) (feedOf ["1", "10"]) ⟨"m1", "One Piece", QDouble.fin 5⟩
      (by decide) (by decide)).1.2 (by decide)),
   ((populateChapterList_freshness (sampleQt (Except.ok (QJsonDocument.array [])))
      (bookmarkedApp (QDouble.fin 10)) (feedOf ["1", "10"]) ⟨"m1", "One Piece", QDouble.fin 10⟩
      (by decide) (by decide)).2.2 (by decide))⟩

/-! ## The one-shot flag along a run (C5) -/

/-- The trimmed text is empty exactly for a blank text. -/
theorem trimmed_isEmpty_iff (isSpace : Char → Bool) (text : String) :
    (trimmed isSpace text).isEmpty = true ↔ Blank isSpace text := by
  have hmk : ∀ l : List Char, String.mk l = "" ↔ l = [] := by
    intro l
    constructor
    · intro h
      have := congrArg String.data h
      simpa using this
    · intro h
      rw [h]
  rw [String.isEmpty_iff]
  unfold trimmed Blank
  rw [hmk, List.reverse_eq_nil_iff, List.dropWhile_eq_nil_iff]
  constructor
  · intro h
    have hnil : text.data.dropWhile isSpace = [] := by
      cases hd : text.data.dropWhile isSpace with
      | nil => rfl
      | cons c rest =>
        have hc : isSpace c = true := h c (by rw [hd]; simp)
        have := List.head_dropWhile_not isSpace text.data (by rw [hd]; simp)
        simp only [hd, List.head_cons] at this
        rw [hc] at this
        exact absurd this (by simp)
    exact List.dropWhile_eq_nil_iff.1 hnil
  · intro h c hc
    rw [List.mem_reverse] at hc
    exact h c ((List.dropWhile_sublist isSpace).subset hc)

/-- C6: the search slot issues no request and shows the empty-query warning exactly when the
text of the search box is empty or all whitespace; for every other text it issues exactly one
request, the GET tagged `MangaSearch` to `https://api.mangadex.org/manga?title=` followed by
the percent-encoding of the trimmed text, and shows nothing. -/
theorem on_pushButtonSearch_clicked_spec (qt : Qt) (s : App) (lineEditText : String) :
    (((on_pushButtonSearch_clicked qt s lineEditText).sent = s.sent
        ∧ (on_pushButtonSearch_clicked qt s lineEditText).messages = s.messages ++ [searchWarning])
      ↔ Blank qt.isSpace lineEditText)
    ∧ (¬ Blank qt.isSpace lineEditText →
        (on_pushButtonSearch_clicked qt s lineEditText).sent
            = s.sent ++ [searchRequest qt lineEditText]
          ∧ (on_pushButtonSearch_clicked qt s lineEditText).messages = s.messages) := by
  have hrun : ¬ Blank qt.isSpace lineEditText →
      (on_pushButtonSearch_clicked qt s lineEditText).sent
          = s.sent ++ [searchRequest qt lineEditText]
        ∧ (on_pushButtonSearch_clicked qt s lineEditText).messages = s.messages := by
    intro hb
    rw [← trimmed_isEmpty_iff, Bool.not_eq_true] at hb
    simp [on_pushButtonSearch_clicked, hb, issue, searchRequest]
  refine ⟨⟨?_, ?_⟩, hrun⟩
  · rintro ⟨hsent, -⟩
    by_contra hb
    have := congrArg List.length ((hrun hb).1.symm.trans hsent)
    simp at this
  · intro hb
    rw [← trimmed_isEmpty_iff] at hb
    simp [on_pushButtonSearch_clicked, hb]

/-- C6, at the text "  one piece ": one request, to the search endpoint with `one%20piece`. -/
theorem on_pushButtonSearch_clicked_spec_witness :
    (on_pushButtonSearch_clicked feedQt emptyApp "  one piece ").sent
        = [⟨"https://api.mangadex.org/manga?title=one%20piece", true, MangaSearch, none, none⟩]
      ∧ (on_pushButtonSearch_clicked feedQt emptyApp "  one piece ").messages = [] :=
  (on_pushButtonSearch_clicked_spec feedQt emptyApp "  one piece ").2
    (fun h => absurd (h 'o' (by decide)) (by decide))

/-! ## The cover chain after the details response (C7) -/

/-- The loop over `relationships` leaves the id of the first "cover_art" entry, or the empty
string when there is none. -/
theorem findCoverId_eq (relationships : List QJsonValue) :
    findCoverId relationships
      = match relationships.find? isCoverArt with
        | some rel => relationId rel
        | none => "" := by
  induction relationships with
  | nil => rfl
  | cons rel rest ih =>
    unfold findCoverId
    cases hrel : isCoverArt rel with
    | true =>
      have hrel2 : ((rel.toObject.value "type").toString == "cover_art") = true := hrel
      simp [List.find?, hrel, hrel2, relationId]
    | false =>
      have hrel2 : ((rel.toObject.value "type").toString == "cover_art") = false := hrel
      simp only [hrel2, List.find?, hrel, Bool.false_eq_true, if_false]
      exact ih

/-- The dispatcher on a decoded details response is the case `MangaDetails`. -/
theorem onNetworkReply_details (qt : Qt) (s : App) (reply : Reply) (obj : QJsonObject)
    (herr : reply.error = none) (htag : reply.requestType = MangaDetails)
    (hdoc : qt.fromJson reply.body = Except.ok (QJsonDocument.object obj)) :
    onNetworkReply qt s reply = onMangaDetails s reply obj := by
  unfold onNetworkReply
  simp [herr, htag, hdoc, MangaDetails, CoverImage, RawImage, MangaSearch, ChapterFeed]

/-- C7, as stated, fails: the details response has an entry of type "cover_art", without id,
and the dispatcher issues no request and writes "No cover available". -/
theorem details_cover_without_id :
    (firstCoverArt coverWithoutId).isSome = true
      ∧ (onNetworkReply (sampleQt (Except.ok (QJsonDocument.object coverWithoutId))) emptyApp
          (replyTagged MangaDetails)).sent = []
      ∧ (onNetworkReply (sampleQt (Except.ok (QJsonDocument.object coverWithoutId))) emptyApp
          (replyTagged MangaDetails)).labelCover = some (CoverLabel.text "No cover available") := by
  decide

/-- C7, amended: on a decoded details response, when `relationships` has no entry of type
"cover_art", or the first such entry has an empty id (absent, or not a string), the dispatcher
issues no request and only writes "No cover available" to the cover label; when the first
such entry has a non-empty id, the dispatcher only issues one request, tagged `CoverImage`, for
`/cover/{id}` with that id. -/
theorem onNetworkReply_details_cover (qt : Qt) (s : App) (reply : Reply) (obj : QJsonObject)
    (herr : reply.error = none) (htag : reply.requestType = MangaDetails)
    (hdoc : qt.fromJson reply.body = Except.ok (QJsonDocument.object obj)) :
    ((firstCoverArt obj = none ∨ ∃ rel, firstCoverArt obj = some rel ∧ relationId rel = "") →
        onNetworkReply qt s reply
          = { s with labelCover := some (CoverLabel.text "No cover available") })
      ∧ (∀ rel, firstCoverArt obj = some rel → relationId rel ≠ "" →
        onNetworkReply qt s reply = issue s (coverRequest reply.mangaId (relationId rel))) := by
  rw [onNetworkReply_details qt s reply obj herr htag hdoc]
  have hid := findCoverId_eq (relationshipsOf obj)
  unfold onMangaDetails
  simp only
  change findCoverId (((obj.value "data").toObject.value "relationships").toArray) = _ at hid
  unfold firstCoverArt
  refine ⟨?_, ?_⟩
  · intro h
    have hempty : findCoverId (((obj.value "data").toObject.value "relationships").toArray) = "" := by
      rcases h with h | ⟨rel, h, hrel⟩
      · rw [hid, h]
      · rw [hid, h]; exact hrel
    rw [hempty]
    rfl
  · intro rel h hne
    have hfound : findCoverId (((obj.value "data").toObject.value "relationships").toArray)
        = relationId rel := by
      rw [hid, h]
    rw [hfound]
    have : (relationId rel).isEmpty = false := by
      rw [← Bool.not_eq_true, String.isEmpty_iff]; exact hne
    simp [this, fetchCoverImage, coverRequest]

/-- C7, amended, at a details response whose second relationship is the cover "c7": one
request for `/cover/c7`. -/
theorem onNetworkReply_details_cover_witness :
    (onNetworkReply (sampleQt (Except.ok (QJsonDocument.object coverWithId))) emptyApp
        (replyTagged MangaDetails)).sent
      = [⟨"https://api.mangadex.org/cover/c7", true, CoverImage, some "m1", none⟩] :=
  congrArg App.sent
    ((onNetworkReply_details_cover (sampleQt (Except.ok (QJsonDocument.object coverWithId)))
      emptyApp (replyTagged MangaDetails) coverWithId rfl rfl rfl).2
      (QJsonValue.object [("id", QJsonValue.string "c7"), ("type", QJsonValue.string "cover_art")])
      rfl (by decide))

/-! ## Malformed bodies (C8) -/

/-- After `INSERT OR REPLACE` the table holds exactly the new row for its `manga_id`. -/
theorem rowsOf_insertOrReplace (rows : List Bookmark) (row : Bookmark) :
    rowsOf (insertOrReplace rows row) row.mangaId = [row] := by
  unfold rowsOf insertOrReplace
  rw [List.filter_append, List.filter_filter]
  simp

/-- Model of `INSERT OR REPLACE` leaves the rows of the other `manga_id`s as they were. -/
theorem otherRows_insertOrReplace (rows : List Bookmark) (row : Bookmark) :
    otherRows (insertOrReplace rows row) row.mangaId = otherRows rows row.mangaId := by
  unfold otherRows insertOrReplace
  rw [List.filter_append, List.filter_filter]
  simp

/-- C9: two successful `saveBookmarkToDb` of bookmarks with the same `mangaId` leave exactly one
row for that `mangaId`, the second bookmark, and leave the rows of every other `mangaId` as
they were. -/
theorem saveBookmarkToDb_twice (s : App) (b1 b2 : Bookmark) (h : b1.mangaId = b2.mangaId) :
    (saveBookmarkToDb s b1 true).2 = true
      ∧ (saveBookmarkToDb (saveBookmarkToDb s b1 true).1 b2 true).2 = true
      ∧ rowsOf (saveBookmarkToDb (saveBookmarkToDb s b1 true).1 b2 true).1.db b2.mangaId = [b2]
      ∧ otherRows (saveBookmarkToDb (saveBookmarkToDb s b1 true).1 b2 true).1.db b2.mangaId
          = otherRows s.db b2.mangaId := by
  refine ⟨rfl, rfl, ?_, ?_⟩
  · exact rowsOf_insertOrReplace _ b2
  · have h2 : (saveBookmarkToDb (saveBookmarkToDb s b1 true).1 b2 true).1.db
        = insertOrReplace (insertOrReplace s.db b1) b2 := rfl
    rw [h2, otherRows_insertOrReplace, ← h, otherRows_insertOrReplace]

/-- C9, at a table holding "m1" and "m2": saving "m1" at chapter 6 and then at chapter 7 leaves
one row for "m1", at chapter 7, and the row of "m2". -/
theorem saveBookmarkToDb_twice_witness :
    (saveBookmarkToDb (saveBookmarkToDb chosenApp ⟨"m1", "One Piece", QDouble.fin 6⟩ true).1
        ⟨"m1", "One Piece", QDouble.fin 7⟩ true).1.db
        = [⟨"m2", "Berserk", QDouble.fin 3⟩, ⟨"m1", "One Piece", QDouble.fin 7⟩]
      ∧ rowsOf (saveBookmarkToDb (saveBookmarkToDb chosenApp ⟨"m1", "One Piece", QDouble.fin 6⟩ true).1
        ⟨"m1", "One Piece", QDouble.fin 7⟩ true).1.db "m1" = [⟨"m1", "One Piece", QDouble.fin 7⟩] :=
  ⟨by decide,
   (saveBookmarkToDb_twice chosenApp ⟨"m1", "One Piece", QDouble.fin 6⟩
      ⟨"m1", "One Piece", QDouble.fin 7⟩ rfl).2.2.1⟩

/-- The reload reads the table and does not write it. -/
theorem loadBookmarksFromDb_db (s : App) (rd : SqlRead) :
    (loadBookmarksFromDb s rd).1.db = s.db := by
  cases rd <;> rfl

/-- C10: when a chapter is chosen and the write succeeds, after the "last read" slot the table
is the old one with the row of the selection inserted or replaced: it holds exactly that row
for `selected.mangaId`, the rows of every other `mangaId` are as before, and the result does
not depend on the previous contents of `bm`; when `selected.chapter` is -1 the table is as
before. -/
theorem on_pushButtonLastRead_clicked_store (s : App) (rd : SqlRead) :
    (s.selected.chapter.ne (QDouble.fin (-1)) = true →
        rowsOf (on_pushButtonLastRead_clicked s true rd).db s.selected.mangaId
            = [⟨s.selected.mangaId, s.selected.title, s.selected.chapter⟩]
          ∧ otherRows (on_pushButtonLastRead_clicked s true rd).db s.selected.mangaId
            = otherRows s.db s.selected.mangaId
          ∧ ∀ stale : Bookmark,
            (on_pushButtonLastRead_clicked { s with bm := stale } true rd).db
              = (on_pushButtonLastRead_clicked s true rd).db)
      ∧ (s.selected.chapter.ne (QDouble.fin (-1)) = false →
          ∀ execOk, (on_pushButtonLastRead_clicked s execOk rd).db = s.db) := by
  refine ⟨?_, ?_⟩
  · intro hsel
    have hdb : ∀ t : App, t.selected = s.selected → t.db = s.db →
        (on_pushButtonLastRead_clicked t true rd).db
          = insertOrReplace s.db ⟨s.selected.mangaId, s.selected.title, s.selected.chapter⟩ := by
      intro t ht hd
      unfold on_pushButtonLastRead_clicked
      simp only [ht, hsel, if_true]
      rw [loadBookmarksFromDb_db]
      simp [saveBookmarkToDb, hd]
    refine ⟨?_, ?_, ?_⟩
    · rw [hdb s rfl rfl]
      exact rowsOf_insertOrReplace s.db ⟨s.selected.mangaId, s.selected.title, s.selected.chapter⟩
    · rw [hdb s rfl rfl]
      exact otherRows_insertOrReplace s.db ⟨s.selected.mangaId, s.selected.title, s.selected.chapter⟩
    · intro stale
      rw [hdb s rfl rfl, hdb { s with bm := stale } rfl rfl]
  · intro hsel execOk
    unfold on_pushButtonLastRead_clicked
    simp only [hsel, Bool.false_eq_true, if_false]
    rw [loadBookmarksFromDb_db]

/-- C10, at a table holding "m1" and "m2", with chapter 12 of "m1" chosen and `bm` still
holding "m2": the table ends with the row of "m2" untouched and "m1" at chapter 12. -/
theorem on_pushButtonLastRead_clicked_store_witness :
    (on_pushButtonLastRead_clicked chosenApp true SqlRead.ok).db
        = [⟨"m2", "Berserk", QDouble.fin 3⟩, ⟨"m1", "One Piece", QDouble.fin 12⟩]
      ∧ rowsOf (on_pushButtonLastRead_clicked chosenApp true SqlRead.ok).db "m1"
        = [⟨"m1", "One Piece", QDouble.fin 12⟩]
      ∧ (on_pushButtonLastRead_clicked { chosenApp with selected := ⟨"m1", "One Piece", QDouble.fin (-1)⟩ }
          true SqlRead.ok).db = chosenApp.db :=
  ⟨by decide,
   ((on_pushButtonLastRead_clicked_store chosenApp SqlRead.ok).1 (by decide)).1,
   (on_pushButtonLastRead_clicked_store
      { chosenApp with selected := ⟨"m1", "One Piece", QDouble.fin (-1)⟩ } SqlRead.ok).2
      (by decide) true⟩

/-! ## The in-memory map after a reload (C11) -/

/-- Assigning under a key the map does not have adds the entry at the end. -/
theorem assign_of_not_mem (m : BookmarkMap) (key : String) (value : Bookmark)
    (h : key ∉ m.map Prod.fst) : m.assign key value = m ++ [(key, value)] := by
  unfold BookmarkMap.assign
  congr 1
  rw [List.filter_eq_self]
  intro kv hkv
  have hne : kv.1 ≠ key := by
    intro heq
    exact h (List.mem_map.2 ⟨kv, hkv, heq⟩)
  simpa using hne

/-- The loop of the reload, over rows with distinct `manga_id`s that the map does not have,
adds the entry of each row, in order. -/
theorem loadLoop_map (rows : List Bookmark) :
    ∀ (m : BookmarkMap) (items : List BookmarkItem),
      (∀ r ∈ rows, r.mangaId ∉ m.map Prod.fst) → PrimaryKey rows →
      (loadLoop rows (m, items)).1 = m ++ rows.map entryOf := by
  induction rows with
  | nil => intro m items _ _; simp [loadLoop]
  | cons row rest ih =>
    intro m items hfresh hkey
    unfold PrimaryKey at hkey
    rw [List.map_cons, List.nodup_cons] at hkey
    rw [loadLoop, assign_of_not_mem m row.mangaId row (hfresh row (List.mem_cons_self _ _))]
    rw [ih (m ++ [(row.mangaId, row)]) _ ?_ hkey.2]
    · simp [entryOf]
    · intro r hr hmem
      rw [List.map_append, List.mem_append] at hmem
      rcases hmem with hmem | hmem
      · exact hfresh r (List.mem_cons_of_mem _ hr) hmem
      · simp only [List.map_cons, List.map_nil, List.mem_singleton] at hmem
        exact hkey.1 (List.mem_map.2 ⟨r, hr, hmem⟩)

/-- The loop of the reload adds the item of each row to the list widget, in order. -/
theorem loadLoop_items (rows : List Bookmark) :
    ∀ (m : BookmarkMap) (items : List BookmarkItem),
      (loadLoop rows (m, items)).2 = items ++ rows.map bookmarkItemOf := by
  induction rows with
  | nil => intro m items; simp [loadLoop]
  | cons row rest ih =>
    intro m items
    rw [loadLoop, ih]
    simp

/-- A successful reload leaves in the map exactly the entries of the rows of the table, and in
the list widget their items. -/
theorem loadBookmarksFromDb_ok (s : App) (hkey : PrimaryKey s.db) :
    (loadBookmarksFromDb s SqlRead.ok).1.bookmarks = s.db.map entryOf
      ∧ (loadBookmarksFromDb s SqlRead.ok).1.listWidgetBookmarks = s.db.map bookmarkItemOf
      ∧ (loadBookmarksFromDb s SqlRead.ok).1.db = s.db := by
  have h1 := loadLoop_map s.db [] [] (by simp) hkey
  have h2 := loadLoop_items s.db [] []
  simp only [List.nil_append] at h1 h2
  exact ⟨h1, h2, rfl⟩

/-- The statement `INSERT OR REPLACE` keeps the primary key. -/
theorem primaryKey_insertOrReplace (rows : List Bookmark) (row : Bookmark)
    (hkey : PrimaryKey rows) : PrimaryKey (insertOrReplace rows row) := by
  unfold PrimaryKey insertOrReplace at *
  rw [List.map_append, List.nodup_append]
  refine ⟨hkey.sublist ((List.filter_sublist rows).map _), by simp, ?_⟩
  intro a ha hb
  simp only [List.map_cons, List.map_nil, List.mem_singleton] at hb
  subst hb
  obtain ⟨r, hr, hid⟩ := List.mem_map.1 ha
  have := (List.mem_filter.1 hr).2
  simp [hid] at this

/-- The statement `DELETE` keeps the primary key. -/
theorem primaryKey_deleteWhere (rows : List Bookmark) (mangaId : String)
    (hkey : PrimaryKey rows) : PrimaryKey (deleteWhere rows mangaId) := by
  unfold PrimaryKey deleteWhere at *
  exact hkey.sublist ((List.filter_sublist rows).map _)

/-- The table after the "last read" slot: the row of the selection is inserted or replaced when
a chapter is chosen and the write succeeds; otherwise the table is as before. -/
theorem on_pushButtonLastRead_clicked_db (s : App) (execOk : Bool) (rd : SqlRead) :
    (on_pushButtonLastRead_clicked s execOk rd).db
      = if s.selected.chapter.ne (QDouble.fin (-1)) && execOk then
          insertOrReplace s.db ⟨s.selected.mangaId, s.selected.title, s.selected.chapter⟩
        else s.db := by
  unfold on_pushButtonLastRead_clicked
  cases hsel : s.selected.chapter.ne (QDouble.fin (-1)) <;> cases execOk <;>
    simp [hsel, loadBookmarksFromDb_db, saveBookmarkToDb, databaseError]

/-- After a successful reload the map holds exactly the entries of the rows of the table the
reload left. -/
theorem reload_sync (t : App) (hkey : PrimaryKey t.db) :
    (loadBookmarksFromDb t SqlRead.ok).1.bookmarks
      = (loadBookmarksFromDb t SqlRead.ok).1.db.map entryOf := by
  rw [(loadBookmarksFromDb_ok t hkey).2.2]
  exact (loadBookmarksFromDb_ok t hkey).1

/-- The map after the "last read" slot with a successful read, from the table it leaves. -/
theorem lastRead_sync (s : App) (execOk : Bool) (hkey : PrimaryKey s.db) :
    (on_pushButtonLastRead_clicked s execOk SqlRead.ok).bookmarks
      = (on_pushButtonLastRead_clicked s execOk SqlRead.ok).db.map entryOf := by
  unfold on_pushButtonLastRead_clicked
  cases hsel : s.selected.chapter.ne (QDouble.fin (-1)) with
  | false =>
    simp only [hsel, Bool.false_eq_true, if_false]
    exact reload_sync _ hkey
  | true =>
    simp only [hsel, if_true]
    cases execOk with
    | false => exact reload_sync _ hkey
    | true => exact reload_sync _ (primaryKey_insertOrReplace s.db _ hkey)

/-- The table and the map after a confirmed, successful delete with a successful read. -/
theorem delete_sync (s : App) (item : BookmarkItem) (hkey : PrimaryKey s.db) :
    (on_pushButtonDelete_clicked s (some item) true true SqlRead.ok).db
        = deleteWhere s.db item.mangaId
      ∧ (on_pushButtonDelete_clicked s (some item) true true SqlRead.ok).bookmarks
        = (on_pushButtonDelete_clicked s (some item) true true SqlRead.ok).db.map entryOf := by
  refine ⟨rfl, ?_⟩
  exact reload_sync _ (primaryKey_deleteWhere s.db item.mangaId hkey)

/-- C11: with successful reads and a table obeying its primary key, after the "last read" slot
(chapter chosen or not, write successful or not) and after the delete slot with a confirmed,
successful delete, the table still obeys its primary key and the in-memory map holds exactly
one entry per row of the table, the row under its `manga_id`; what the map and `bm` held
before the slot, the stale `bm` written at the start of the "last read" slot included, has no
part in the result. -/
theorem bookmarks_match_store (s : App) (hkey : PrimaryKey s.db) :
    (∀ execOk : Bool,
        PrimaryKey (on_pushButtonLastRead_clicked s execOk SqlRead.ok).db
          ∧ (on_pushButtonLastRead_clicked s execOk SqlRead.ok).bookmarks
            = (on_pushButtonLastRead_clicked s execOk SqlRead.ok).db.map entryOf
          ∧ ∀ (stale : Bookmark) (oldMap : BookmarkMap),
            (on_pushButtonLastRead_clicked { s with bm := stale, bookmarks := oldMap } execOk
                SqlRead.ok).bookmarks
              = (on_pushButtonLastRead_clicked s execOk SqlRead.ok).bookmarks)
      ∧ (∀ item : BookmarkItem,
        PrimaryKey (on_pushButtonDelete_clicked s (some item) true true SqlRead.ok).db
          ∧ (on_pushButtonDelete_clicked s (some item) true true SqlRead.ok).bookmarks
            = (on_pushButtonDelete_clicked s (some item) true true SqlRead.ok).db.map entryOf
          ∧ ∀ (stale : Bookmark) (oldMap : BookmarkMap),
            (on_pushButtonDelete_clicked { s with bm := stale, bookmarks := oldMap } (some item)
                true true SqlRead.ok).bookmarks
              = (on_pushButtonDelete_clicked s (some item) true true SqlRead.ok).bookmarks) := by
  refine ⟨?_, ?_⟩
  · intro execOk
    refine ⟨?_, lastRead_sync s execOk hkey, ?_⟩
    · rw [on_pushButtonLastRead_clicked_db]
      split
      · exact primaryKey_insertOrReplace s.db _ hkey
      · exact hkey
    · intro stale oldMap
      rw [lastRead_sync s execOk hkey,
        lastRead_sync { s with bm := stale, bookmarks := oldMap } execOk hkey,
        on_pushButtonLastRead_clicked_db, on_pushButtonLastRead_clicked_db]
  · intro item
    refine ⟨?_, (delete_sync s item hkey).2, ?_⟩
    · rw [(delete_sync s item hkey).1]
      exact primaryKey_deleteWhere s.db item.mangaId hkey
    · intro stale oldMap
      rw [(delete_sync s item hkey).2,
        (delete_sync { s with bm := stale, bookmarks := oldMap } item hkey).2,
        (delete_sync s item hkey).1,
        (delete_sync { s with bm := stale, bookmarks := oldMap } item hkey).1]

/-- C11, at a table holding only "m1" while `bm` still holds "m9" and no chapter is chosen:
after the "last read" slot the map holds the entry of "m1" and nothing for "m9". -/
theorem bookmarks_match_store_witness :
    (on_pushButtonLastRead_clicked staleApp true SqlRead.ok).bookmarks
        = [("m1", ⟨"m1", "One Piece", QDouble.fin 5⟩)]
      ∧ (on_pushButtonLastRead_clicked staleApp true SqlRead.ok).bookmarks
        = (on_pushButtonLastRead_clicked staleApp true SqlRead.ok).db.map entryOf
      ∧ (on_pushButtonLastRead_clicked staleApp true SqlRead.ok).bookmarks.contains "m9" = false :=
  ⟨by decide, ((bookmarks_match_store staleApp (by simp [PrimaryKey, staleApp])).1 true).2.1, by decide⟩

/-! ## The chapter chosen by a press (C12) -/

/-- A press on a chapter item stores an integer: the chapter field converted by `toInt()`. -/
theorem chapterPressed_integral (qt : Qt) (s : App) (item : ChapterItem) :
    (on_listWidgetChapter_itemPressed qt s (some item)).selected.chapter
      = QDouble.fin (qt.variantToInt item.chapterNum) := rfl

/-- Whatever `toInt()` answers, a press on an item whose chapter field parses to a number that
is not integral does not store that number. -/
theorem chapterPressed_not_fractional (qt : Qt) (s : App) (item : ChapterItem) (q : ℚ)
    (hparse : qt.toDouble item.chapterNum = some (QDouble.fin q)) (hfrac : q.den ≠ 1) :
    some (on_listWidgetChapter_itemPressed qt s (some item)).selected.chapter
      ≠ qt.toDouble item.chapterNum := by
  rw [hparse, chapterPressed_integral]
  intro h
  simp only [Option.some.injEq, QDouble.fin.injEq] at h
  apply hfrac
  rw [← h]
  exact Rat.den_intCast _

/-- C12, at the chapter item made from the feed entry "2.5": its chapter field parses to 5/2,
the press stores 0 in `selected.chapter`, and the "mark as last read" that follows writes
the row of "m1" with chapter 0. -/
theorem chapterPressed_fractional_lost :
    (chapterItemOf (chapterEntry "2.5")).chapterNum = "2.5"
      ∧ feedQt.toDouble "2.5" = some (QDouble.fin (mkRat 5 2))
      ∧ (on_listWidgetChapter_itemPressed feedQt staleApp
          (some (chapterItemOf (chapterEntry "2.5")))).selected.chapter = QDouble.fin 0
      ∧ (on_pushButtonLastRead_clicked
          (on_listWidgetChapter_itemPressed feedQt staleApp
            (some (chapterItemOf (chapterEntry "2.5")))) true SqlRead.ok).db
        = [⟨"m1", "One Piece", QDouble.fin 0⟩] := by
  decide

end MangaTracker
